import Mathlib

/-!
Verification of the barcode/peptide detection core of BarPepDetection.py.

The embedding models Python string primitives (str.find, str.rfind,
slicing, with CPython's index adjustment and the -1 "not found" sentinel),
the per-read five-branch scanners of barcode_detection (lines 317-339) and
barcode_detection_margin (lines 363-385), the stream-level aggregation
loops of the two functions, and the windowed/unwindowed dispatch condition
(lines 495-500 and 652-657).  Reads and flanks are lists of characters;
Python ints are Int.
-/

/-- CPython index adjustment for the start bound of find/rfind: a negative
start counts from the end of the string and is clamped below at 0; a start
beyond the length is not clamped. -/
def adjStart (len : Nat) (i : Int) : Nat :=
  if i < 0 then (len + i).toNat else i.toNat

/-- CPython index adjustment for the end bound of find/rfind: clamped above
at the length; a negative end counts from the end and is clamped below
at 0. -/
def adjEnd (len : Nat) (i : Int) : Nat :=
  if (len : Int) < i then len else if i < 0 then (len + i).toNat else i.toNat

/-- Does sub occur in s at position i, entirely inside s? -/
def occursAt (s sub : List Char) (i : Nat) : Bool :=
  decide ((s.drop i).take sub.length = sub)

/-- Candidate predicate for a Python substring search over the adjusted
bounds lo/hi: an occurrence at i counts when lo ≤ i and i + len(sub) ≤ hi. -/
def findCand (s sub : List Char) (lo hi i : Nat) : Bool :=
  decide (lo ≤ i) && decide (i + sub.length ≤ hi) && occursAt s sub i

/-- Least candidate position, if any. -/
def pyFindNat (s sub : List Char) (lo hi : Nat) : Option Nat :=
  (List.range (s.length + 1)).find? (findCand s sub lo hi)

/-- Greatest candidate position, if any. -/
def pyRFindNat (s sub : List Char) (lo hi : Nat) : Option Nat :=
  (List.range (s.length + 1)).reverse.find? (findCand s sub lo hi)

/-- Python s.find(sub, start, stop): index of the first occurrence of sub
within the adjusted bounds, or -1 when there is none. -/
def pyFind (s sub : List Char) (start stop : Int) : Int :=
  match pyFindNat s sub (adjStart s.length start) (adjEnd s.length stop) with
  | some i => (i : Int)
  | none => -1

/-- Python s.rfind(sub, start, stop): index of the last occurrence of sub
within the adjusted bounds, or -1 when there is none. -/
def pyRFind (s sub : List Char) (start stop : Int) : Int :=
  match pyRFindNat s sub (adjStart s.length start) (adjEnd s.length stop) with
  | some i => (i : Int)
  | none => -1

/-- Python slice index adjustment: negative indices count from the end and
are clamped below at 0; indices beyond the length are clamped to it. -/
def sliceIdx (len : Nat) (i : Int) : Nat :=
  if i < 0 then (len + i).toNat else min i.toNat len

/-- Python slice s[a:b]. -/
def pySlice (s : List Char) (a b : Int) : List Char :=
  (s.take (sliceIdx s.length b)).drop (sliceIdx s.length a)

/-- Complement of one nucleotide character, as Bio.Seq.reverse_complement
acts on the uppercase alphabet used by the script. -/
def complementBase (c : Char) : Char :=
  if c = 'A' then 'T' else if c = 'T' then 'A'
  else if c = 'C' then 'G' else if c = 'G' then 'C' else c

/-- Reverse complement; the script sets BCV_left_revcomp = revcomp(BCV_right)
and BCV_right_revcomp = revcomp(BCV_left) (lines 406-407). -/
def revcomp (s : List Char) : List Char := (s.map complementBase).reverse

/-- Outcome of scanning one read: the extracted insert, or a miss counted
as "no constant region". -/
inductive MatchOutcome where
  | Found (insert : List Char)
  | Missed
deriving DecidableEq

/-- Per-read body of barcode_detection (lines 317-339): unbounded find/rfind
in both orientations, five branches in strict order, raw sentinel
arithmetic on the results. -/
def scanRead (ln BCV_left BCV_right BCV_left_revcomp BCV_right_revcomp : List Char)
    (BCV_size : Int) : MatchOutcome :=
  let A := pyFind ln BCV_right 0 ln.length
  let B := pyFind ln BCV_left 0 ln.length
  if A - B = BCV_size + (BCV_left.length : Int) then
    MatchOutcome.Found (pySlice ln (B + (BCV_left.length : Int)) A)
  else
    let C := pyRFind ln BCV_right 0 ln.length
    if C - B = BCV_size + (BCV_left.length : Int) then
      MatchOutcome.Found (pySlice ln (B + (BCV_left.length : Int)) C)
    else
      let D := pyFind ln BCV_right_revcomp 0 ln.length
      let E := pyFind ln BCV_left_revcomp 0 ln.length
      if D - E = BCV_size + (BCV_left_revcomp.length : Int) then
        MatchOutcome.Found (pySlice ln (E + (BCV_left_revcomp.length : Int)) D)
      else
        let F := pyRFind ln BCV_right_revcomp 0 ln.length
        if F - E = BCV_size + (BCV_left_revcomp.length : Int) then
          MatchOutcome.Found (pySlice ln (E + (BCV_left_revcomp.length : Int)) F)
        else
          MatchOutcome.Missed

/-- Per-read body of barcode_detection_margin (lines 363-385): the same five
branches, each search bounded from BCV_loc / BCV_loc_revcomp and BCV_margin.
Note the source bounds: the search for BCV_left_revcomp starts at
BCV_loc_revcomp - BCV_margin - len(BCV_left) (line 375), and the rfind for
BCV_right_revcomp ends at BCV_loc_revcomp + BCV_margin + BCV_size +
len(BCV_right) (line 380). -/
def scanReadMargin (ln BCV_left BCV_right BCV_left_revcomp BCV_right_revcomp : List Char)
    (BCV_loc BCV_margin BCV_loc_revcomp BCV_size : Int) : MatchOutcome :=
  let A := pyFind ln BCV_right (BCV_loc - BCV_margin + BCV_size) ln.length
  let B := pyFind ln BCV_left (BCV_loc - BCV_margin - (BCV_left.length : Int)) ln.length
  if A - B = BCV_size + (BCV_left.length : Int) then
    MatchOutcome.Found (pySlice ln (B + (BCV_left.length : Int)) A)
  else
    let C := pyRFind ln BCV_right (BCV_loc - BCV_margin + BCV_size)
      (BCV_loc + BCV_margin + BCV_size + (BCV_right.length : Int))
    if C - B = BCV_size + (BCV_left.length : Int) then
      MatchOutcome.Found (pySlice ln (B + (BCV_left.length : Int)) C)
    else
      let D := pyFind ln BCV_right_revcomp (BCV_loc_revcomp - BCV_margin + BCV_size) ln.length
      let E := pyFind ln BCV_left_revcomp
        (BCV_loc_revcomp - BCV_margin - (BCV_left.length : Int)) ln.length
      if D - E = BCV_size + (BCV_left_revcomp.length : Int) then
        MatchOutcome.Found (pySlice ln (E + (BCV_left_revcomp.length : Int)) D)
      else
        let F := pyRFind ln BCV_right_revcomp (BCV_loc_revcomp - BCV_margin + BCV_size)
          (BCV_loc_revcomp + BCV_margin + BCV_size + (BCV_right.length : Int))
        if F - E = BCV_size + (BCV_left_revcomp.length : Int) then
          MatchOutcome.Found (pySlice ln (E + (BCV_left_revcomp.length : Int)) F)
        else
          MatchOutcome.Missed

/-- Aggregated outputs of one full pass of either detection function:
result list, total read count, miss count, per-read length list. -/
structure ScanReport where
  result : List (List Char)
  read_count : Nat
  no_constant_region : Nat
  size : List Nat
deriving DecidableEq

/-- The per-read loop shared verbatim by both detection functions: increment
read_count, append the read length, uppercase the sequence, scan, and either
append the extracted insert or increment the miss counter. -/
def detectLoop (scan : List Char → MatchOutcome) :
    List (List Char) → ScanReport → ScanReport
  | [], st => st
  | ln :: rest, st =>
    let st1 : ScanReport :=
      ⟨st.result, st.read_count + 1, st.no_constant_region, st.size ++ [ln.length]⟩
    match scan (ln.map Char.toUpper) with
    | MatchOutcome.Found bcv =>
        detectLoop scan rest
          ⟨st1.result ++ [bcv], st1.read_count, st1.no_constant_region, st1.size⟩
    | MatchOutcome.Missed =>
        detectLoop scan rest
          ⟨st1.result, st1.read_count, st1.no_constant_region + 1, st1.size⟩

/-- barcode_detection (lines 298-340): a full pass of the unwindowed scanner
over the read stream. -/
def barcode_detection (reads : List (List Char))
    (BCV_left BCV_right BCV_left_revcomp BCV_right_revcomp : List Char)
    (BCV_size : Int) : ScanReport :=
  detectLoop
    (fun ln => scanRead ln BCV_left BCV_right BCV_left_revcomp BCV_right_revcomp BCV_size)
    reads ⟨[], 0, 0, []⟩

/-- barcode_detection_margin (lines 344-386): a full pass of the windowed
scanner over the read stream. -/
def barcode_detection_margin (reads : List (List Char))
    (BCV_left BCV_right : List Char) (BCV_loc BCV_margin : Int)
    (BCV_left_revcomp BCV_right_revcomp : List Char)
    (BCV_loc_revcomp BCV_size : Int) : ScanReport :=
  detectLoop
    (fun ln => scanReadMargin ln BCV_left BCV_right BCV_left_revcomp BCV_right_revcomp
      BCV_loc BCV_margin BCV_loc_revcomp BCV_size)
    reads ⟨[], 0, 0, []⟩

/-- Python truthiness of an optional integer CLI argument: None is falsy,
and so is a supplied 0. -/
def optFalsy : Option Int → Bool
  | none => true
  | some n => n == 0

/-- The dispatch condition of lines 495-500 and 652-657: the windowed
scanner barcode_detection_margin is selected iff
not (not BCV_loc or not BCV_margin or not BCV_loc_revcomp); BCV_margin is a
plain int (argparse default 5), the two locations are optional. -/
def dispatchWindowed (BCV_loc : Option Int) (BCV_margin : Int)
    (BCV_loc_revcomp : Option Int) : Bool :=
  !(optFalsy BCV_loc || BCV_margin == 0 || optFalsy BCV_loc_revcomp)

/-- The criterion claimed by the spec: windowed iff all three window fields
are present; BCV_margin always carries a value (argparse default 5), so
presence reduces to the two optional locations being supplied, and a
supplied value such as 0 counts as present. -/
def claimedPresenceWindowed (BCV_loc : Option Int) (_BCV_margin : Int)
    (BCV_loc_revcomp : Option Int) : Bool :=
  BCV_loc.isSome && BCV_loc_revcomp.isSome

/-- Amended criterion: windowed iff all three fields are truthy, i.e.
present and nonzero. -/
def truthyWindowed (BCV_loc : Option Int) (BCV_margin : Int)
    (BCV_loc_revcomp : Option Int) : Bool :=
  (match BCV_loc with | none => false | some a => !(a == 0)) &&
  !(BCV_margin == 0) &&
  (match BCV_loc_revcomp with | none => false | some b => !(b == 0))

/-- The windowed per-read scanner with the bounds exactly as the claim words
them: the reverse-complement searches are the forward ones with BCV_loc,
BCV_right, BCV_left uniformly replaced by BCV_loc_revcomp,
BCV_right_revcomp, BCV_left_revcomp — in particular the search for
BCV_left_revcomp starts at BCV_loc_revcomp - BCV_margin -
len(BCV_left_revcomp) and the last-occurrence search for BCV_right_revcomp
is bounded by BCV_loc_revcomp + BCV_margin + BCV_size +
len(BCV_right_revcomp). -/
def claimedMarginScan (ln BCV_left BCV_right BCV_left_revcomp BCV_right_revcomp : List Char)
    (BCV_loc BCV_margin BCV_loc_revcomp BCV_size : Int) : MatchOutcome :=
  let A := pyFind ln BCV_right (BCV_loc - BCV_margin + BCV_size) ln.length
  let B := pyFind ln BCV_left (BCV_loc - BCV_margin - (BCV_left.length : Int)) ln.length
  if A - B = BCV_size + (BCV_left.length : Int) then
    MatchOutcome.Found (pySlice ln (B + (BCV_left.length : Int)) A)
  else
    let C := pyRFind ln BCV_right (BCV_loc - BCV_margin + BCV_size)
      (BCV_loc + BCV_margin + BCV_size + (BCV_right.length : Int))
    if C - B = BCV_size + (BCV_left.length : Int) then
      MatchOutcome.Found (pySlice ln (B + (BCV_left.length : Int)) C)
    else
      let D := pyFind ln BCV_right_revcomp (BCV_loc_revcomp - BCV_margin + BCV_size) ln.length
      let E := pyFind ln BCV_left_revcomp
        (BCV_loc_revcomp - BCV_margin - (BCV_left_revcomp.length : Int)) ln.length
      if D - E = BCV_size + (BCV_left_revcomp.length : Int) then
        MatchOutcome.Found (pySlice ln (E + (BCV_left_revcomp.length : Int)) D)
      else
        let F := pyRFind ln BCV_right_revcomp (BCV_loc_revcomp - BCV_margin + BCV_size)
          (BCV_loc_revcomp + BCV_margin + BCV_size + (BCV_right_revcomp.length : Int))
        if F - E = BCV_size + (BCV_left_revcomp.length : Int) then
          MatchOutcome.Found (pySlice ln (E + (BCV_left_revcomp.length : Int)) F)
        else
          MatchOutcome.Missed

/-- The windowed per-read scanner with the amended bounds: the
reverse-complement searches substitute BCV_loc_revcomp for BCV_loc but keep
the forward flank lengths, len(BCV_left) in the start of the
BCV_left_revcomp search and len(BCV_right) in the end of the
BCV_right_revcomp last-occurrence search. -/
def amendedMarginScan (ln BCV_left BCV_right BCV_left_revcomp BCV_right_revcomp : List Char)
    (BCV_loc BCV_margin BCV_loc_revcomp BCV_size : Int) : MatchOutcome :=
  let A := pyFind ln BCV_right (BCV_loc - BCV_margin + BCV_size) ln.length
  let B := pyFind ln BCV_left (BCV_loc - BCV_margin - (BCV_left.length : Int)) ln.length
  if A - B = BCV_size + (BCV_left.length : Int) then
    MatchOutcome.Found (pySlice ln (B + (BCV_left.length : Int)) A)
  else
    let C := pyRFind ln BCV_right (BCV_loc - BCV_margin + BCV_size)
      (BCV_loc + BCV_margin + BCV_size + (BCV_right.length : Int))
    if C - B = BCV_size + (BCV_left.length : Int) then
      MatchOutcome.Found (pySlice ln (B + (BCV_left.length : Int)) C)
    else
      let D := pyFind ln BCV_right_revcomp (BCV_loc_revcomp - BCV_margin + BCV_size) ln.length
      let E := pyFind ln BCV_left_revcomp
        (BCV_loc_revcomp - BCV_margin - (BCV_left.length : Int)) ln.length
      if D - E = BCV_size + (BCV_left_revcomp.length : Int) then
        MatchOutcome.Found (pySlice ln (E + (BCV_left_revcomp.length : Int)) D)
      else
        let F := pyRFind ln BCV_right_revcomp (BCV_loc_revcomp - BCV_margin + BCV_size)
          (BCV_loc_revcomp + BCV_margin + BCV_size + (BCV_right.length : Int))
        if F - E = BCV_size + (BCV_left_revcomp.length : Int) then
          MatchOutcome.Found (pySlice ln (E + (BCV_left_revcomp.length : Int)) F)
        else
          MatchOutcome.Missed

/- Concrete inputs used by the closed theorems below. -/

def readA : List Char := "GATCAAAACCGG".toList

def readB : List Char := "GATCAAAACCGGTTTTGATCAAAACCGG".toList

def readSentinel : List Char := "TTTTTTTCCGG".toList

def readWindow : List Char := "GATTCCAAAA".toList

def readRCBounds : List Char := "ATGGGGAATC".toList

def readSpecZero : List Char := "GATCCCGG".toList

def flankGATC : List Char := "GATC".toList

def flankCCGG : List Char := "CCGG".toList

def flankGA : List Char := "GA".toList

def flankCC : List Char := "CC".toList

def flankCCCC : List Char := "CCCC".toList

def insAAAA : List Char := "AAAA".toList

def insAA : List Char := "AA".toList

def insTTTT : List Char := "TTTT".toList

/-! ### Helper lemmas about the Python primitives -/

lemma revcomp_eq_nil_iff (s : List Char) : revcomp s = [] ↔ s = [] := by
  simp [revcomp]

lemma adjEnd_le (len : Nat) (i : Int) : adjEnd len i ≤ len := by
  unfold adjEnd
  split_ifs <;> omega

lemma findCand_true {s sub : List Char} {lo hi i : Nat}
    (h : findCand s sub lo hi i = true) : lo ≤ i ∧ i + sub.length ≤ hi := by
  simp only [findCand, Bool.and_eq_true, decide_eq_true_eq] at h
  exact ⟨h.1.1, h.1.2⟩

lemma pyFind_neg_one_le (s sub : List Char) (a b : Int) : -1 ≤ pyFind s sub a b := by
  unfold pyFind
  split <;> omega

lemma pyRFind_neg_one_le (s sub : List Char) (a b : Int) : -1 ≤ pyRFind s sub a b := by
  unfold pyRFind
  split <;> omega

lemma pyFind_cases (s sub : List Char) (a b : Int) :
    pyFind s sub a b = -1 ∨
      ∃ i : Nat, pyFind s sub a b = (i : Int) ∧ i + sub.length ≤ s.length := by
  rcases h : pyFindNat s sub (adjStart s.length a) (adjEnd s.length b) with _ | i
  · left
    unfold pyFind
    rw [h]
  · right
    refine ⟨i, ?_, ?_⟩
    · unfold pyFind
      rw [h]
    · have hc := List.find?_some h
      exact le_trans (findCand_true hc).2 (adjEnd_le _ _)

lemma pyRFind_cases (s sub : List Char) (a b : Int) :
    pyRFind s sub a b = -1 ∨
      ∃ i : Nat, pyRFind s sub a b = (i : Int) ∧ i + sub.length ≤ s.length := by
  rcases h : pyRFindNat s sub (adjStart s.length a) (adjEnd s.length b) with _ | i
  · left
    unfold pyRFind
    rw [h]
  · right
    refine ⟨i, ?_, ?_⟩
    · unfold pyRFind
      rw [h]
    · have hc := List.find?_some h
      exact le_trans (findCand_true hc).2 (adjEnd_le _ _)

lemma adjStart_past {len : Nat} {a : Int} (h : (len : Int) < a) :
    len < adjStart len a := by
  unfold adjStart
  split_ifs <;> omega

lemma pyFind_start_past (s sub : List Char) {a : Int} (b : Int)
    (h : (s.length : Int) < a) : pyFind s sub a b = -1 := by
  have hno : pyFindNat s sub (adjStart s.length a) (adjEnd s.length b) = none := by
    unfold pyFindNat
    refine List.find?_eq_none.mpr ?_
    intro i hi hc
    have h1 := (findCand_true hc).1
    have h2 := adjStart_past h
    simp only [List.mem_range] at hi
    omega
  unfold pyFind
  rw [hno]

lemma pyRFind_start_past (s sub : List Char) {a : Int} (b : Int)
    (h : (s.length : Int) < a) : pyRFind s sub a b = -1 := by
  have hno : pyRFindNat s sub (adjStart s.length a) (adjEnd s.length b) = none := by
    unfold pyRFindNat
    refine List.find?_eq_none.mpr ?_
    intro i hi hc
    have h1 := (findCand_true hc).1
    have h2 := adjStart_past h
    simp only [List.mem_reverse, List.mem_range] at hi
    omega
  unfold pyRFind
  rw [hno]

lemma sliceIdx_of_nonneg_le {len : Nat} {i : Int} (h0 : 0 ≤ i) (h : i ≤ (len : Int)) :
    sliceIdx len i = i.toNat := by
  unfold sliceIdx
  split_ifs <;> omega

lemma pySlice_length (s : List Char) (a b : Int) (h0 : 0 ≤ a) (hab : a ≤ b)
    (hb : b ≤ (s.length : Int)) : (pySlice s a b).length = (b - a).toNat := by
  unfold pySlice
  rw [sliceIdx_of_nonneg_le (le_trans h0 hab) hb,
    sliceIdx_of_nonneg_le h0 (le_trans hab hb), List.length_drop, List.length_take]
  omega

/-- Length of the substring any Found branch extracts: if the right-boundary
search result r satisfies the branch equality r - B = size + len(lft) with B
the left-boundary search result (both possibly the -1 sentinel), the
extracted slice has length exactly size. -/
lemma branch_len {ln lft : List Char} {B r sz : Int} {rl : Nat} {ins : List Char}
    (hB : -1 ≤ B)
    (hr : r = -1 ∨ ∃ i : Nat, r = (i : Int) ∧ i + rl ≤ ln.length)
    (hL : lft ≠ []) (hsz : 0 < sz)
    (heq : r - B = sz + (lft.length : Int))
    (hins : pySlice ln (B + (lft.length : Int)) r = ins) :
    ins.length = sz.toNat := by
  subst hins
  have hL1 : 0 < lft.length := List.length_pos.mpr hL
  rcases hr with h | ⟨i, hi, hlen⟩
  · omega
  · subst hi
    rw [pySlice_length ln _ _ (by omega) (by omega) (by omega)]
    omega

/-! ### Aggregation loop lemmas -/

lemma detectLoop_read_count (scan : List Char → MatchOutcome) :
    ∀ (reads : List (List Char)) (st : ScanReport),
      (detectLoop scan reads st).read_count = st.read_count + reads.length := by
  intro reads
  induction reads with
  | nil => intro st; simp [detectLoop]
  | cons ln rest ih =>
    intro st
    cases h : scan (ln.map Char.toUpper) with
    | Found bcv =>
      simp only [detectLoop, h, ih, List.length_cons]
      omega
    | Missed =>
      simp only [detectLoop, h, ih, List.length_cons]
      omega

lemma detectLoop_size (scan : List Char → MatchOutcome) :
    ∀ (reads : List (List Char)) (st : ScanReport),
      (detectLoop scan reads st).size = st.size ++ reads.map List.length := by
  intro reads
  induction reads with
  | nil => intro st; simp [detectLoop]
  | cons ln rest ih =>
    intro st
    cases h : scan (ln.map Char.toUpper) with
    | Found bcv =>
      simp [detectLoop, h, ih]
    | Missed =>
      simp [detectLoop, h, ih]

lemma detectLoop_inv (scan : List Char → MatchOutcome) :
    ∀ (reads : List (List Char)) (st : ScanReport),
      (detectLoop scan reads st).result.length + (detectLoop scan reads st).no_constant_region
        = st.result.length + st.no_constant_region + reads.length := by
  intro reads
  induction reads with
  | nil => intro st; simp [detectLoop]
  | cons ln rest ih =>
    intro st
    cases h : scan (ln.map Char.toUpper) with
    | Found bcv =>
      simp only [detectLoop, h, ih, List.length_append, List.length_cons,
        List.length_nil]
      omega
    | Missed =>
      simp only [detectLoop, h, ih, List.length_cons]
      omega

/-! ### Claim theorems -/

/-- Claim C1: the unwindowed scanner applies exactly the five-branch strict
precedence: with A/B the first occurrences of right/left, branch 1 fires on
A - B = insert_size + len(left) and returns the substring between
B + len(left) and A; else branch 2 tests the last occurrence C of right
against B; branches 3 and 4 repeat both steps with right_rc/left_rc (first
occurrence D, first occurrence E, last occurrence F); else Missed.  The
first branch whose equality holds wins and no later branch is evaluated. -/
theorem C1_five_branch_precedence
    (ln BCV_left BCV_right BCV_left_revcomp BCV_right_revcomp : List Char) (BCV_size : Int) :
    (pyFind ln BCV_right 0 (ln.length : Int) - pyFind ln BCV_left 0 (ln.length : Int)
        = BCV_size + (BCV_left.length : Int) →
      scanRead ln BCV_left BCV_right BCV_left_revcomp BCV_right_revcomp BCV_size
        = MatchOutcome.Found (pySlice ln
            (pyFind ln BCV_left 0 (ln.length : Int) + (BCV_left.length : Int))
            (pyFind ln BCV_right 0 (ln.length : Int)))) ∧
    (pyFind ln BCV_right 0 (ln.length : Int) - pyFind ln BCV_left 0 (ln.length : Int)
        ≠ BCV_size + (BCV_left.length : Int) →
      pyRFind ln BCV_right 0 (ln.length : Int) - pyFind ln BCV_left 0 (ln.length : Int)
        = BCV_size + (BCV_left.length : Int) →
      scanRead ln BCV_left BCV_right BCV_left_revcomp BCV_right_revcomp BCV_size
        = MatchOutcome.Found (pySlice ln
            (pyFind ln BCV_left 0 (ln.length : Int) + (BCV_left.length : Int))
            (pyRFind ln BCV_right 0 (ln.length : Int)))) ∧
    (pyFind ln BCV_right 0 (ln.length : Int) - pyFind ln BCV_left 0 (ln.length : Int)
        ≠ BCV_size + (BCV_left.length : Int) →
      pyRFind ln BCV_right 0 (ln.length : Int) - pyFind ln BCV_left 0 (ln.length : Int)
        ≠ BCV_size + (BCV_left.length : Int) →
      pyFind ln BCV_right_revcomp 0 (ln.length : Int)
          - pyFind ln BCV_left_revcomp 0 (ln.length : Int)
        = BCV_size + (BCV_left_revcomp.length : Int) →
      scanRead ln BCV_left BCV_right BCV_left_revcomp BCV_right_revcomp BCV_size
        = MatchOutcome.Found (pySlice ln
            (pyFind ln BCV_left_revcomp 0 (ln.length : Int) + (BCV_left_revcomp.length : Int))
            (pyFind ln BCV_right_revcomp 0 (ln.length : Int)))) ∧
    (pyFind ln BCV_right 0 (ln.length : Int) - pyFind ln BCV_left 0 (ln.length : Int)
        ≠ BCV_size + (BCV_left.length : Int) →
      pyRFind ln BCV_right 0 (ln.length : Int) - pyFind ln BCV_left 0 (ln.length : Int)
        ≠ BCV_size + (BCV_left.length : Int) →
      pyFind ln BCV_right_revcomp 0 (ln.length : Int)
          - pyFind ln BCV_left_revcomp 0 (ln.length : Int)
        ≠ BCV_size + (BCV_left_revcomp.length : Int) →
      pyRFind ln BCV_right_revcomp 0 (ln.length : Int)
          - pyFind ln BCV_left_revcomp 0 (ln.length : Int)
        = BCV_size + (BCV_left_revcomp.length : Int) →
      scanRead ln BCV_left BCV_right BCV_left_revcomp BCV_right_revcomp BCV_size
        = MatchOutcome.Found (pySlice ln
            (pyFind ln BCV_left_revcomp 0 (ln.length : Int) + (BCV_left_revcomp.length : Int))
            (pyRFind ln BCV_right_revcomp 0 (ln.length : Int)))) ∧
    (pyFind ln BCV_right 0 (ln.length : Int) - pyFind ln BCV_left 0 (ln.length : Int)
        ≠ BCV_size + (BCV_left.length : Int) →
      pyRFind ln BCV_right 0 (ln.length : Int) - pyFind ln BCV_left 0 (ln.length : Int)
        ≠ BCV_size + (BCV_left.length : Int) →
      pyFind ln BCV_right_revcomp 0 (ln.length : Int)
          - pyFind ln BCV_left_revcomp 0 (ln.length : Int)
        ≠ BCV_size + (BCV_left_revcomp.length : Int) →
      pyRFind ln BCV_right_revcomp 0 (ln.length : Int)
          - pyFind ln BCV_left_revcomp 0 (ln.length : Int)
        ≠ BCV_size + (BCV_left_revcomp.length : Int) →
      scanRead ln BCV_left BCV_right BCV_left_revcomp BCV_right_revcomp BCV_size
        = MatchOutcome.Missed) := by
  refine ⟨?_, ?_, ?_, ?_, ?_⟩
  · intro h1
    simp only [scanRead]
    rw [if_pos h1]
  · intro h1 h2
    simp only [scanRead]
    rw [if_neg h1, if_pos h2]
  · intro h1 h2 h3
    simp only [scanRead]
    rw [if_neg h1, if_neg h2, if_pos h3]
  · intro h1 h2 h3 h4
    simp only [scanRead]
    rw [if_neg h1, if_neg h2, if_neg h3, if_pos h4]
  · intro h1 h2 h3 h4
    simp only [scanRead]
    rw [if_neg h1, if_neg h2, if_neg h3, if_neg h4]

/-- Witness for C1 at a concrete input: on "GATCAAAACCGG" branch 1 fires and
the scanner extracts "AAAA". -/
theorem C1_five_branch_precedence_witness :
    scanRead readA flankGATC flankCCGG (revcomp flankCCGG) (revcomp flankGATC) 4
      = MatchOutcome.Found insAAAA :=
  Eq.trans
    ((C1_five_branch_precedence readA flankGATC flankCCGG (revcomp flankCCGG)
      (revcomp flankGATC) 4).1 (by decide))
    (by decide)

/-- Claim C3: with non-empty left and right flanks and positive insert size
(and the reverse-complement flanks derived from them as the program does),
whenever either scanner returns Found, the extracted insert has length
exactly insert_size, in every branch. -/
theorem C3_found_insert_length (ln BCV_left BCV_right : List Char) (BCV_size : Int)
    (ins : List Char) (hleft : BCV_left ≠ []) (hright : BCV_right ≠ [])
    (hsize : 0 < BCV_size) :
    (scanRead ln BCV_left BCV_right (revcomp BCV_right) (revcomp BCV_left) BCV_size
        = MatchOutcome.Found ins → ins.length = BCV_size.toNat) ∧
    (∀ BCV_loc BCV_margin BCV_loc_revcomp : Int,
      scanReadMargin ln BCV_left BCV_right (revcomp BCV_right) (revcomp BCV_left)
          BCV_loc BCV_margin BCV_loc_revcomp BCV_size
        = MatchOutcome.Found ins → ins.length = BCV_size.toNat) := by
  have hlrc : revcomp BCV_right ≠ [] :=
    fun hc => hright ((revcomp_eq_nil_iff BCV_right).mp hc)
  constructor
  · intro h
    simp only [scanRead] at h
    split at h
    case isTrue hc =>
      simp only [MatchOutcome.Found.injEq] at h
      exact branch_len (pyFind_neg_one_le _ _ _ _) (pyFind_cases _ _ _ _) hleft hsize hc h
    case isFalse h1 =>
      split at h
      case isTrue hc =>
        simp only [MatchOutcome.Found.injEq] at h
        exact branch_len (pyFind_neg_one_le _ _ _ _) (pyRFind_cases _ _ _ _) hleft hsize hc h
      case isFalse h2 =>
        split at h
        case isTrue hc =>
          simp only [MatchOutcome.Found.injEq] at h
          exact branch_len (pyFind_neg_one_le _ _ _ _) (pyFind_cases _ _ _ _) hlrc hsize hc h
        case isFalse h3 =>
          split at h
          case isTrue hc =>
            simp only [MatchOutcome.Found.injEq] at h
            exact branch_len (pyFind_neg_one_le _ _ _ _) (pyRFind_cases _ _ _ _) hlrc hsize hc h
          case isFalse h4 =>
            simp at h
  · intro BCV_loc BCV_margin BCV_loc_revcomp h
    simp only [scanReadMargin] at h
    split at h
    case isTrue hc =>
      simp only [MatchOutcome.Found.injEq] at h
      exact branch_len (pyFind_neg_one_le _ _ _ _) (pyFind_cases _ _ _ _) hleft hsize hc h
    case isFalse h1 =>
      split at h
      case isTrue hc =>
        simp only [MatchOutcome.Found.injEq] at h
        exact branch_len (pyFind_neg_one_le _ _ _ _) (pyRFind_cases _ _ _ _) hleft hsize hc h
      case isFalse h2 =>
        split at h
        case isTrue hc =>
          simp only [MatchOutcome.Found.injEq] at h
          exact branch_len (pyFind_neg_one_le _ _ _ _) (pyFind_cases _ _ _ _) hlrc hsize hc h
        case isFalse h3 =>
          split at h
          case isTrue hc =>
            simp only [MatchOutcome.Found.injEq] at h
            exact branch_len (pyFind_neg_one_le _ _ _ _) (pyRFind_cases _ _ _ _) hlrc hsize hc h
          case isFalse h4 =>
            simp at h

/-- Witness for C3 at a concrete input: the hypotheses hold for the
GATC/CCGG spec with insert_size 4, and the insert "AAAA" extracted from
"GATCAAAACCGG" has length 4. -/
theorem C3_found_insert_length_witness :
    flankGATC ≠ [] ∧ flankCCGG ≠ [] ∧ (0 : Int) < 4 ∧ insAAAA.length = (4 : Int).toNat :=
  ⟨by decide, by decide, by decide,
    (C3_found_insert_length readA flankGATC flankCCGG 4 insAAAA (by decide) (by decide)
      (by decide)).1 (by decide)⟩

/-- Claim C4: after a full pass of either detection function,
len(result) + no_constant_region = read_count — each read contributes to
exactly one of the two — and an empty stream yields the zero report without
failing. -/
theorem C4_aggregate_invariant (reads : List (List Char))
    (BCV_left BCV_right BCV_left_revcomp BCV_right_revcomp : List Char)
    (BCV_loc BCV_margin BCV_loc_revcomp BCV_size : Int) :
    ((barcode_detection reads BCV_left BCV_right BCV_left_revcomp BCV_right_revcomp
        BCV_size).result.length
      + (barcode_detection reads BCV_left BCV_right BCV_left_revcomp BCV_right_revcomp
        BCV_size).no_constant_region
      = (barcode_detection reads BCV_left BCV_right BCV_left_revcomp BCV_right_revcomp
        BCV_size).read_count) ∧
    ((barcode_detection_margin reads BCV_left BCV_right BCV_loc BCV_margin
        BCV_left_revcomp BCV_right_revcomp BCV_loc_revcomp BCV_size).result.length
      + (barcode_detection_margin reads BCV_left BCV_right BCV_loc BCV_margin
        BCV_left_revcomp BCV_right_revcomp BCV_loc_revcomp BCV_size).no_constant_region
      = (barcode_detection_margin reads BCV_left BCV_right BCV_loc BCV_margin
        BCV_left_revcomp BCV_right_revcomp BCV_loc_revcomp BCV_size).read_count) ∧
    (barcode_detection [] BCV_left BCV_right BCV_left_revcomp BCV_right_revcomp BCV_size
      = ⟨[], 0, 0, []⟩) ∧
    (barcode_detection_margin [] BCV_left BCV_right BCV_loc BCV_margin
        BCV_left_revcomp BCV_right_revcomp BCV_loc_revcomp BCV_size
      = ⟨[], 0, 0, []⟩) := by
  refine ⟨?_, ?_, rfl, rfl⟩
  · unfold barcode_detection
    rw [detectLoop_inv, detectLoop_read_count]
    simp
  · unfold barcode_detection_margin
    rw [detectLoop_inv, detectLoop_read_count]
    simp

/-- Claim C10: each read contributes exactly one entry — its length — to the
returned per-read length list, regardless of outcome; after a full pass the
list equals the reads' lengths in encounter order and has read_count
entries. -/
theorem C10_length_list (reads : List (List Char))
    (BCV_left BCV_right BCV_left_revcomp BCV_right_revcomp : List Char)
    (BCV_loc BCV_margin BCV_loc_revcomp BCV_size : Int) :
    ((barcode_detection reads BCV_left BCV_right BCV_left_revcomp BCV_right_revcomp
        BCV_size).size = reads.map List.length) ∧
    ((barcode_detection reads BCV_left BCV_right BCV_left_revcomp BCV_right_revcomp
        BCV_size).size.length
      = (barcode_detection reads BCV_left BCV_right BCV_left_revcomp BCV_right_revcomp
        BCV_size).read_count) ∧
    ((barcode_detection_margin reads BCV_left BCV_right BCV_loc BCV_margin
        BCV_left_revcomp BCV_right_revcomp BCV_loc_revcomp BCV_size).size
      = reads.map List.length) ∧
    ((barcode_detection_margin reads BCV_left BCV_right BCV_loc BCV_margin
        BCV_left_revcomp BCV_right_revcomp BCV_loc_revcomp BCV_size).size.length
      = (barcode_detection_margin reads BCV_left BCV_right BCV_loc BCV_margin
        BCV_left_revcomp BCV_right_revcomp BCV_loc_revcomp BCV_size).read_count) := by
  refine ⟨?_, ?_, ?_, ?_⟩ <;>
    simp [barcode_detection, barcode_detection_margin, detectLoop_size,
      detectLoop_read_count]

/-- Claim C2 (code bug): on the read "TTTTTTTCCGG" the left flank "GATC"
does not occur (its search yields the -1 sentinel), yet the first forward
branch fires — A - B = 7 - (-1) = 8 = insert_size + len(left) — and the
scanner returns Found("TTTT") instead of recording a miss: the sentinel is
never short-circuited, so sentinel arithmetic produces a false match. -/
theorem C2_sentinel_false_match :
    pyFind readSentinel flankGATC 0 (readSentinel.length : Int) = -1 ∧
    scanRead readSentinel flankGATC flankCCGG (revcomp flankCCGG) (revcomp flankGATC) 4
      = MatchOutcome.Found insTTTT := by decide

/-- Claim C5, counterexample: with loc supplied as 0, margin 5 and loc_rc
supplied as 10 all three window fields are present, yet the dispatch
condition selects the unwindowed scanner, because Python truthiness treats
the supplied 0 like an absent value. -/
theorem C5_presence_cx :
    claimedPresenceWindowed (some 0) 5 (some 10) = true ∧
    dispatchWindowed (some 0) 5 (some 10) = false := by decide

/-- Claim C5 as amended: the windowed scanner is selected iff all three of
loc, margin, loc_rc are truthy — present and nonzero; a supplied 0 falls
back to the unwindowed scanner exactly like an absent value. -/
theorem C5_truthy_dispatch (BCV_loc : Option Int) (BCV_margin : Int)
    (BCV_loc_revcomp : Option Int) :
    dispatchWindowed BCV_loc BCV_margin BCV_loc_revcomp
      = truthyWindowed BCV_loc BCV_margin BCV_loc_revcomp := by
  cases BCV_loc <;> cases BCV_loc_revcomp <;>
    simp [dispatchWindowed, truthyWindowed, optFalsy, Bool.not_or, Bool.and_assoc]

/-- Claim C6, counterexample: on the read "ATGGGGAATC" with left "GA",
right "CCCC", insert_size 2, loc 0, margin 0, loc_rc 6, the source scanner
misses while the scanner whose reverse-complement bounds use the
reverse-complement flank lengths (the uniform substitution the claim
words) finds "AA": the source starts the left_rc search at
loc_rc - margin - len(left), not loc_rc - margin - len(left_rc). -/
theorem C6_rc_bounds_cx :
    scanReadMargin readRCBounds flankGA flankCCCC (revcomp flankCCCC) (revcomp flankGA)
        0 0 6 2 = MatchOutcome.Missed ∧
    claimedMarginScan readRCBounds flankGA flankCCCC (revcomp flankCCCC) (revcomp flankGA)
        0 0 6 2 = MatchOutcome.Found insAA := by decide

/-- Claim C6 as amended: the windowed searches are bounded exactly as the
source writes them — forward bounds as claimed, and reverse-complement
searches substituting loc_rc for loc but keeping the forward flank lengths:
the left_rc search starts at loc_rc - margin - len(left) and the right_rc
last-occurrence search ends at loc_rc + margin + insert_size + len(right). -/
theorem C6_amended_bounds
    (ln BCV_left BCV_right BCV_left_revcomp BCV_right_revcomp : List Char)
    (BCV_loc BCV_margin BCV_loc_revcomp BCV_size : Int) :
    scanReadMargin ln BCV_left BCV_right BCV_left_revcomp BCV_right_revcomp
        BCV_loc BCV_margin BCV_loc_revcomp BCV_size
      = amendedMarginScan ln BCV_left BCV_right BCV_left_revcomp BCV_right_revcomp
        BCV_loc BCV_margin BCV_loc_revcomp BCV_size := rfl

/-- Claim C7, counterexample: a bounded search with negative start -3 on the
10-character read "GATTCCAAAA" searches only the last three characters and
misses "CC" (result -1), whereas starting at position 0 — or at 0 plus the
deficit 3 — finds it at index 4: a negative start does not behave like a
clamp to the front of the read. -/
theorem C7_negative_start_cx :
    pyFind readWindow flankCC (-3) 10 = -1 ∧ pyFind readWindow flankCC 0 10 = 4 ∧
    pyFind readWindow flankCC 3 10 = 4 := by decide

/-- Claim C7 as amended: a bounded search whose computed start is negative
behaves identically to starting at max(read_length + start, 0) — Python's
count-from-the-end with clamping below at 0; a search whose computed start
exceeds the read length finds nothing; and a read whose forward and
reverse-complement windows both lie entirely past its end is surfaced as
Missed (all six searches return the sentinel and 0 cannot equal the
positive branch constant). -/
theorem C7_amended_window_semantics :
    (∀ (s sub : List Char) (a b : Int), a < 0 →
      pyFind s sub a b = pyFind s sub (max ((s.length : Int) + a) 0) b ∧
      pyRFind s sub a b = pyRFind s sub (max ((s.length : Int) + a) 0) b) ∧
    (∀ (s sub : List Char) (a b : Int), (s.length : Int) < a →
      pyFind s sub a b = -1 ∧ pyRFind s sub a b = -1) ∧
    (∀ (ln BCV_left BCV_right BCV_left_revcomp BCV_right_revcomp : List Char)
      (BCV_loc BCV_margin BCV_loc_revcomp BCV_size : Int),
      0 < BCV_size →
      (ln.length : Int) < BCV_loc - BCV_margin + BCV_size →
      (ln.length : Int) < BCV_loc - BCV_margin - (BCV_left.length : Int) →
      (ln.length : Int) < BCV_loc_revcomp - BCV_margin + BCV_size →
      (ln.length : Int) < BCV_loc_revcomp - BCV_margin - (BCV_left.length : Int) →
      scanReadMargin ln BCV_left BCV_right BCV_left_revcomp BCV_right_revcomp
        BCV_loc BCV_margin BCV_loc_revcomp BCV_size = MatchOutcome.Missed) := by
  refine ⟨?_, ?_, ?_⟩
  · intro s sub a b ha
    have hadj : adjStart s.length a = adjStart s.length (max ((s.length : Int) + a) 0) := by
      unfold adjStart
      split_ifs <;> omega
    constructor
    · unfold pyFind
      rw [hadj]
    · unfold pyRFind
      rw [hadj]
  · intro s sub a b ha
    exact ⟨pyFind_start_past s sub b ha, pyRFind_start_past s sub b ha⟩
  · intro ln BCV_left BCV_right BCV_left_revcomp BCV_right_revcomp
      BCV_loc BCV_margin BCV_loc_revcomp BCV_size hsz h1 h2 h3 h4
    have hA : pyFind ln BCV_right (BCV_loc - BCV_margin + BCV_size)
        (ln.length : Int) = -1 := pyFind_start_past _ _ _ h1
    have hB : pyFind ln BCV_left (BCV_loc - BCV_margin - (BCV_left.length : Int))
        (ln.length : Int) = -1 := pyFind_start_past _ _ _ h2
    have hC : pyRFind ln BCV_right (BCV_loc - BCV_margin + BCV_size)
        (BCV_loc + BCV_margin + BCV_size + (BCV_right.length : Int)) = -1 :=
      pyRFind_start_past _ _ _ h1
    have hD : pyFind ln BCV_right_revcomp (BCV_loc_revcomp - BCV_margin + BCV_size)
        (ln.length : Int) = -1 := pyFind_start_past _ _ _ h3
    have hE : pyFind ln BCV_left_revcomp
        (BCV_loc_revcomp - BCV_margin - (BCV_left.length : Int))
        (ln.length : Int) = -1 := pyFind_start_past _ _ _ h4
    have hF : pyRFind ln BCV_right_revcomp (BCV_loc_revcomp - BCV_margin + BCV_size)
        (BCV_loc_revcomp + BCV_margin + BCV_size + (BCV_right.length : Int)) = -1 :=
      pyRFind_start_past _ _ _ h3
    simp only [scanReadMargin, hA, hB, hC, hD, hE, hF]
    rw [if_neg (by omega), if_neg (by omega), if_neg (by omega), if_neg (by omega)]

/-- Witness for C7 as amended, at concrete inputs: negative start -3 on
"GATTCCAAAA" agrees with start max(10 - 3, 0); start 99 finds nothing; and
with loc = loc_rc = 100 the whole window lies past the read, which is
Missed. -/
theorem C7_amended_window_semantics_witness :
    pyFind readWindow flankCC (-3) 10
        = pyFind readWindow flankCC (max ((readWindow.length : Int) + -3) 0) 10 ∧
    pyFind readWindow flankCC 99 10 = -1 ∧
    scanReadMargin readWindow flankGA flankCC (revcomp flankCC) (revcomp flankGA)
        100 0 100 2 = MatchOutcome.Missed :=
  ⟨(C7_amended_window_semantics.1 readWindow flankCC (-3) 10 (by decide)).1,
   (C7_amended_window_semantics.2.1 readWindow flankCC 99 10 (by decide)).1,
   C7_amended_window_semantics.2.2 readWindow flankGA flankCC (revcomp flankCC)
     (revcomp flankGA) 100 0 100 2 (by decide) (by decide) (by decide) (by decide)
     (by decide)⟩

/-- Claim C8, counterexample: on the scenario-B read
"GATCAAAACCGGTTTTGATCAAAACCGG" the span bounded by the first left flank and
the last right flank is 24 ≠ insert_size + len(left) = 8, so the claim
predicts Missed — but the scanner returns Found("AAAA"). -/
theorem C8_first_branch_cx :
    scanRead readB flankGATC flankCCGG (revcomp flankCCGG) (revcomp flankGATC) 4
      = MatchOutcome.Found insAAAA ∧
    pyRFind readB flankCCGG 0 (readB.length : Int)
        - pyFind readB flankGATC 0 (readB.length : Int)
      ≠ 4 + (flankGATC.length : Int) := by decide

/-- Claim C8 as amended: on the scenario-B read the FIRST-occurrence branch
already satisfies A - B = 8 - 0 = insert_size + len(left), so the scanner
returns Found("AAAA") from branch 1 and the last-occurrence branch is never
consulted. -/
theorem C8_amended_outcome :
    scanRead readB flankGATC flankCCGG (revcomp flankCCGG) (revcomp flankGATC) 4
      = MatchOutcome.Found insAAAA ∧
    pyFind readB flankCCGG 0 (readB.length : Int) = 8 ∧
    pyFind readB flankGATC 0 (readB.length : Int) = 0 ∧
    pyFind readB flankCCGG 0 (readB.length : Int)
        - pyFind readB flankGATC 0 (readB.length : Int)
      = 4 + (flankGATC.length : Int) := by decide

/-- Claim C9 (code bug): the program performs no specification validation at
all — with the invalid insert_size = 0 a full pass over the stream
["GATCCCGG"] runs to completion and even "extracts" the empty insert,
instead of the spec being rejected before any read is scanned. -/
theorem C9_scan_without_validation :
    barcode_detection [readSpecZero] flankGATC flankCCGG (revcomp flankCCGG)
        (revcomp flankGATC) 0 = ⟨[[]], 1, 0, [8]⟩ := by decide
